import Mathlib

/-!
Shallow embedding of the signature-verification utilities in
`util/util.go` (package `util` of eos-external-tools).

External effects (subprocess execution, temporary-directory creation,
recursive removal) are modelled by an explicit environment record
supplying each call's outcome, together with an event trace recording
every external action the function performs, in order.  A Go `error`
is modelled as `Option String` (`none` = nil, `some msg` = an error
whose `Error()` string is `msg`).
-/

namespace EextUtil

/-- Outcome of `cmd.Output()` inside `CheckOutput`: either success with
captured stdout, or an `exec.ExitError` carrying the exit code and captured
stderr, or some other error carrying its message. -/
inductive ExecResult where
  | success (stdout : String)
  | exitError (stdout : String) (exitCode : Int) (stderr : String)
  | otherError (stdout : String) (errMsg : String)
deriving DecidableEq

/-- One external action performed by a verification function:
`run d a` models `RunSystemCmd`, `runIn` models `RunSystemCmdInDir`,
`capture` models a `CheckOutput` call, and `removeAll` models the
deferred `os.RemoveAll` cleanup. -/
inductive Event where
  | run (name : String) (args : List String)
  | runIn (dir : String) (name : String) (args : List String)
  | capture (name : String) (args : List String)
  | removeAll (path : String)
deriving DecidableEq

/-- True exactly for `Event.runIn` events (a subprocess run in a working
directory, i.e. the `git verify-commit` / `git verify-tag` invocations). -/
def Event.isRunIn : Event → Bool
  | .runIn _ _ _ => true
  | _ => false

/-- Environment supplying the outcome of each external interaction a
verification call can make: the `os.MkdirTemp` result (`Except`: error
message or created directory), the two `RunSystemCmd` gpg outcomes
(keyring creation and key import), the `cmd.Output` outcome of the
`gpg --verify` call (tarball path), and the `RunSystemCmdInDir` outcome
of the `git verify-…` call (git path). -/
structure ExtEnv where
  mkdirTempRes : Except String String
  createKeyringRes : Option String
  importKeyRes : Option String
  verifySigRes : ExecResult
  gitVerifyRes : Option String

/-- Models Go `strings.Join(args, " ")`. -/
def stringsJoin (args : List String) : String :=
  String.intercalate " " args

/-- Occurrence of `pat` as a contiguous sublist of `s`
(character-level model of Go `strings.Contains`). -/
def substrOccurs (pat : List Char) : List Char → Bool
  | [] => pat.isPrefixOf []
  | c :: rest => pat.isPrefixOf (c :: rest) || substrOccurs pat rest

/-- Models Go `strings.Contains(s, pat)`. -/
def stringContains (s pat : String) : Bool :=
  substrOccurs pat.data s.data

/-- Models Go `filepath.Join` for an already-clean first component
(the only way it is used here: joining a fresh `MkdirTemp` directory
with a simple file name). -/
def filepathJoin (a b : String) : String :=
  if a = "" then b else a ++ "/" ++ b

/-- GitSpec from `util.go`: a revision (commit hash or tag name) and the
path of a local clone containing it. -/
structure GitSpec where
  Revision : String
  ClonedDir : String
deriving DecidableEq

/-- typeOfGitRevision from `util.go`.  The source body is a stub: it is
documented to return "COMMIT" or "TAG" but unconditionally returns "". -/
def GitSpec.typeOfGitRevision (_spec : GitSpec) : String :=
  ""

/-- GetVersionFromRevision from `util.go`.  The source body is a stub: it
is documented to return the tag name as-is, or a (possibly shortened)
commit hash, but unconditionally returns "". -/
def GitSpec.GetVersionFromRevision (_spec : GitSpec) : String :=
  ""

/-- CheckOutput from `util.go`, as a function of the modelled
`cmd.Output()` outcome.  Returns the captured stdout paired with the Go
error (`none` = nil; on an `exec.ExitError` the message embeds the exit
code and captured stderr, otherwise it wraps the raw error). -/
def CheckOutput (name : String) (args : List String) (res : ExecResult) :
    String × Option String :=
  match res with
  | .success out => (out, none)
  | .exitError out code stderr =>
      (out, some ("Running '" ++ name ++ " " ++ stringsJoin args ++
        "': exited with exit-code " ++ toString code ++ "\nstderr:\n" ++ stderr))
  | .otherError out e =>
      (out, some ("Running '" ++ name ++ " " ++ stringsJoin args ++
        "' failed with '" ++ e ++ "'"))

/-- VerifyRpmSignature from `util.go`, as a function of the modelled
outcome of `CheckOutput("rpm", "-K", rpmPath)`.  `errPfx` models the
`errPrefix` parameter (source type `ErrPrefix`, a string). -/
def VerifyRpmSignature (res : ExecResult) (rpmPath errPfx : String) :
    Option String :=
  match CheckOutput "rpm" ["-K", rpmPath] res with
  | (_, some err) => some (errPfx ++ ":" ++ err)
  | (output, none) =>
      if !(stringContains output "digests signatures OK") then
        some (errPfx ++ "Signature check of " ++ rpmPath ++
          " failed. rpm -K output:\n" ++ output)
      else
        none

/-- The `baseArgs` slice built by VerifyTarballSignature and
VerifyGitSignature after `keyRingPath := filepath.Join(tmpDir, "eext.gpg")`. -/
def gpgBaseArgs (tmpDir : String) : List String :=
  ["--homedir", tmpDir,
   "--no-default-keyring", "--keyring", filepathJoin tmpDir "eext.gpg"]

/-- VerifyTarballSignature from `util.go`.  Returns the ordered trace of
external actions together with the Go error result.  The deferred
`os.RemoveAll(tmpDir)` is modelled by a trailing `Event.removeAll` on
every exit path entered after `os.MkdirTemp` succeeds. -/
def VerifyTarballSignature (env : ExtEnv)
    (tarballPath tarballSigPath pubKeyPath errPfx : String) :
    List Event × Option String :=
  match env.mkdirTempRes with
  | .error e =>
      ([], some (errPfx ++ "Error '" ++ e ++ "'creating temp dir for keyring"))
  | .ok tmpDir =>
    let baseArgs := gpgBaseArgs tmpDir
    let gpgCmd := "gpg"
    let createKeyRingCmdArgs := baseArgs ++ ["--fingerprint"]
    match env.createKeyringRes with
    | some err =>
        ([Event.run gpgCmd createKeyRingCmdArgs, Event.removeAll tmpDir],
         some (errPfx ++ "Error '" ++ err ++ "'creating keyring"))
    | none =>
      let importKeyCmdArgs := baseArgs ++ ["--import", pubKeyPath]
      match env.importKeyRes with
      | some err =>
          ([Event.run gpgCmd createKeyRingCmdArgs,
            Event.run gpgCmd importKeyCmdArgs, Event.removeAll tmpDir],
           some (errPfx ++ "Error '" ++ err ++ "' importing public-key " ++
             pubKeyPath))
      | none =>
        let verifySigArgs := baseArgs ++ ["--verify", tarballSigPath, tarballPath]
        match CheckOutput gpgCmd verifySigArgs env.verifySigRes with
        | (output, some err) =>
            ([Event.run gpgCmd createKeyRingCmdArgs,
              Event.run gpgCmd importKeyCmdArgs,
              Event.capture gpgCmd verifySigArgs, Event.removeAll tmpDir],
             some (errPfx ++ "Error verifying signature " ++ tarballSigPath ++
               " for tarball " ++ tarballPath ++ " with pubkey " ++ pubKeyPath ++
               "." ++ "\ngpg --verify err: " ++ err ++ "stdout:" ++ output))
        | (_, none) =>
            ([Event.run gpgCmd createKeyRingCmdArgs,
              Event.run gpgCmd importKeyCmdArgs,
              Event.capture gpgCmd verifySigArgs, Event.removeAll tmpDir],
             none)

/-- VerifyGitSignature from `util.go`.  Returns the ordered trace of
external actions together with the Go error result.  The deferred
`os.RemoveAll(tmpDir)` is modelled by a trailing `Event.removeAll` on
every exit path entered after `os.MkdirTemp` succeeds.  The COMMIT and
TAG branches are translated faithfully even though `typeOfGitRevision`
is a stub that never selects them. -/
def VerifyGitSignature (env : ExtEnv) (pubKeyPath : String)
    (gitSpec : GitSpec) (errPfx : String) : List Event × Option String :=
  match env.mkdirTempRes with
  | .error e =>
      ([], some (errPfx ++ "Error '" ++ e ++ "'creating temp dir for keyring"))
  | .ok tmpDir =>
    let baseArgs := gpgBaseArgs tmpDir
    let gpgCmd := "gpg"
    let createKeyRingCmdArgs := baseArgs ++ ["--fingerprint"]
    match env.createKeyringRes with
    | some err =>
        ([Event.run gpgCmd createKeyRingCmdArgs, Event.removeAll tmpDir],
         some (errPfx ++ "Error '" ++ err ++ "'creating keyring"))
    | none =>
      let importKeyCmdArgs := baseArgs ++ ["--import", pubKeyPath]
      match env.importKeyRes with
      | some err =>
          ([Event.run gpgCmd createKeyRingCmdArgs,
            Event.run gpgCmd importKeyCmdArgs, Event.removeAll tmpDir],
           some (errPfx ++ "Error '" ++ err ++ "' importing public-key " ++
             pubKeyPath))
      | none =>
        let revision := gitSpec.Revision
        let revisionType := gitSpec.typeOfGitRevision
        if revisionType == "COMMIT" then
          let verifyRepoCmd := ["verify-commit", "-v", revision]
          match env.gitVerifyRes with
          | some err =>
              ([Event.run gpgCmd createKeyRingCmdArgs,
                Event.run gpgCmd importKeyCmdArgs,
                Event.runIn gitSpec.ClonedDir "git" verifyRepoCmd,
                Event.removeAll tmpDir],
               some (errPfx ++ "error during verifying git repo at " ++
                 gitSpec.ClonedDir ++ ": " ++ err))
          | none =>
              ([Event.run gpgCmd createKeyRingCmdArgs,
                Event.run gpgCmd importKeyCmdArgs,
                Event.runIn gitSpec.ClonedDir "git" verifyRepoCmd,
                Event.removeAll tmpDir],
               none)
        else if revisionType == "TAG" then
          let verifyRepoCmd := ["verify-tag", "-v", revision]
          match env.gitVerifyRes with
          | some err =>
              ([Event.run gpgCmd createKeyRingCmdArgs,
                Event.run gpgCmd importKeyCmdArgs,
                Event.runIn gitSpec.ClonedDir "git" verifyRepoCmd,
                Event.removeAll tmpDir],
               some (errPfx ++ "error during verifying git repo at " ++
                 gitSpec.ClonedDir ++ ": " ++ err))
          | none =>
              ([Event.run gpgCmd createKeyRingCmdArgs,
                Event.run gpgCmd importKeyCmdArgs,
                Event.runIn gitSpec.ClonedDir "git" verifyRepoCmd,
                Event.removeAll tmpDir],
               none)
        else
          ([Event.run gpgCmd createKeyRingCmdArgs,
            Event.run gpgCmd importKeyCmdArgs, Event.removeAll tmpDir],
           some (errPfx ++ "invalid revision " ++ revision ++
             " provided, provide either a COMMIT or TAG"))

theorem isPrefixOf_append_self (l t : List Char) : l.isPrefixOf (l ++ t) = true := by
  rw [List.isPrefixOf_iff_prefix]
  exact List.prefix_append l t

theorem isPrefixOf_self (l : List Char) : l.isPrefixOf l = true := by
  have h := isPrefixOf_append_self l []
  rwa [List.append_nil] at h

theorem substrOccurs_of_isPrefixOf {b s : List Char} (h : b.isPrefixOf s = true) :
    substrOccurs b s = true := by
  cases s with
  | nil => simpa [substrOccurs] using h
  | cons c rest => simp [substrOccurs, h]

theorem substrOccurs_append_left (x : List Char) {b s : List Char}
    (h : substrOccurs b s = true) : substrOccurs b (x ++ s) = true := by
  induction x with
  | nil => simpa using h
  | cons c cs ih => simp [substrOccurs, ih]

theorem gitVerify_has_no_runIn (env : ExtEnv) (pubKeyPath : String)
    (gitSpec : GitSpec) (errPfx : String) :
    ((VerifyGitSignature env pubKeyPath gitSpec errPfx).1.all
      fun e => !e.isRunIn) = true := by
  obtain ⟨mk, co, io, v, g⟩ := env
  cases mk <;> cases co <;> cases io <;> rfl

/-- C1: for every call to VerifyTarballSignature or VerifyGitSignature in
which the temporary keyring directory is successfully created (the
environment's MkdirTemp outcome is `.ok tmpDir`), the removal of that
directory (`Event.removeAll tmpDir`, modelling the deferred recursive
`os.RemoveAll`) is the last external action of the call, on every exit
path: success, keyring-creation failure, key-import failure, and
verification failure (all outcomes are universally quantified). -/
theorem keyring_dir_removed_on_every_path
    (tmpDir tarballPath tarballSigPath pubKeyPath errPfx pk2 errPfx2 : String)
    (co io g : Option String) (v : ExecResult) (gs : GitSpec) :
    (VerifyTarballSignature ⟨.ok tmpDir, co, io, v, g⟩
        tarballPath tarballSigPath pubKeyPath errPfx).1.getLast? =
      some (Event.removeAll tmpDir) ∧
    (VerifyGitSignature ⟨.ok tmpDir, co, io, v, g⟩ pk2 gs errPfx2).1.getLast? =
      some (Event.removeAll tmpDir) := by
  cases co <;> cases io <;> cases v <;> exact ⟨rfl, rfl⟩

/-- C2: every gpg invocation issued by VerifyTarballSignature and
VerifyGitSignature is one of keyring creation, key import, or signature
verification, and each of them carries the base arguments
`--homedir tmpDir --no-default-keyring --keyring tmpDir/eext.gpg` for the
fresh temporary directory, so none consults a default or system keyring;
the only key-import invocation imports exactly the caller-supplied public
key, so the ephemeral keyring can hold only that key.  The theorem
characterises every possible trace as one of the listed shapes. -/
theorem gpg_invocations_scoped_to_ephemeral_keyring
    (tmpDir tarballPath tarballSigPath pubKeyPath errPfx errPfx2 : String)
    (co io g : Option String) (v : ExecResult) (gs : GitSpec) :
    ((VerifyTarballSignature ⟨.ok tmpDir, co, io, v, g⟩
        tarballPath tarballSigPath pubKeyPath errPfx).1 =
        [Event.run "gpg" (gpgBaseArgs tmpDir ++ ["--fingerprint"]),
         Event.removeAll tmpDir] ∨
     (VerifyTarballSignature ⟨.ok tmpDir, co, io, v, g⟩
        tarballPath tarballSigPath pubKeyPath errPfx).1 =
        [Event.run "gpg" (gpgBaseArgs tmpDir ++ ["--fingerprint"]),
         Event.run "gpg" (gpgBaseArgs tmpDir ++ ["--import", pubKeyPath]),
         Event.removeAll tmpDir] ∨
     (VerifyTarballSignature ⟨.ok tmpDir, co, io, v, g⟩
        tarballPath tarballSigPath pubKeyPath errPfx).1 =
        [Event.run "gpg" (gpgBaseArgs tmpDir ++ ["--fingerprint"]),
         Event.run "gpg" (gpgBaseArgs tmpDir ++ ["--import", pubKeyPath]),
         Event.capture "gpg"
           (gpgBaseArgs tmpDir ++ ["--verify", tarballSigPath, tarballPath]),
         Event.removeAll tmpDir]) ∧
    ((VerifyGitSignature ⟨.ok tmpDir, co, io, v, g⟩ pubKeyPath gs errPfx2).1 =
        [Event.run "gpg" (gpgBaseArgs tmpDir ++ ["--fingerprint"]),
         Event.removeAll tmpDir] ∨
     (VerifyGitSignature ⟨.ok tmpDir, co, io, v, g⟩ pubKeyPath gs errPfx2).1 =
        [Event.run "gpg" (gpgBaseArgs tmpDir ++ ["--fingerprint"]),
         Event.run "gpg" (gpgBaseArgs tmpDir ++ ["--import", pubKeyPath]),
         Event.removeAll tmpDir]) := by
  cases co <;> cases io <;> cases v <;>
    first
    | exact ⟨Or.inl rfl, Or.inl rfl⟩
    | exact ⟨Or.inr (Or.inl rfl), Or.inr rfl⟩
    | exact ⟨Or.inr (Or.inr rfl), Or.inr rfl⟩

/-- C3: VerifyRpmSignature succeeds exactly when the underlying
`rpm -K` invocation exits zero (modelled `.success out`) and the captured
output contains the exact marker "digests signatures OK"; an exit-zero
output lacking the marker yields a failure whose message carries the
captured output; a nonzero exit (modelled `.exitError`) yields a failure
whose message carries the exit code; a non-exit failure also fails. -/
theorem rpm_marker_decides_success
    (rpmPath errPfx out stderr emsg : String) (code : Int) :
    (VerifyRpmSignature (.success out) rpmPath errPfx = none ↔
      stringContains out "digests signatures OK" = true) ∧
    (Option.all (fun m => stringContains m out)
      (VerifyRpmSignature (.success out) rpmPath errPfx) = true) ∧
    (∃ msg, VerifyRpmSignature (.exitError out code stderr) rpmPath errPfx =
        some msg ∧ stringContains msg (toString code) = true) ∧
    (∃ msg, VerifyRpmSignature (.otherError out emsg) rpmPath errPfx =
        some msg) := by
  refine ⟨?_, ?_, ⟨_, rfl, ?_⟩, ⟨_, rfl⟩⟩
  · cases h : stringContains out "digests signatures OK" <;>
      simp [VerifyRpmSignature, CheckOutput, h]
  · cases h : stringContains out "digests signatures OK" <;>
      simp only [VerifyRpmSignature, CheckOutput, h, Bool.not_false, Bool.not_true,
        if_true, if_false, Option.all]
    · simp only [stringContains, String.data_append, List.append_assoc]
      repeat
        first
        | exact substrOccurs_of_isPrefixOf (isPrefixOf_self _)
        | exact substrOccurs_of_isPrefixOf (isPrefixOf_append_self _ _)
        | apply substrOccurs_append_left
    · rfl
  · simp only [stringContains, String.data_append, List.append_assoc]
    repeat
      first
      | exact substrOccurs_of_isPrefixOf (isPrefixOf_self _)
      | exact substrOccurs_of_isPrefixOf (isPrefixOf_append_self _ _)
      | apply substrOccurs_append_left

/-- C9: CheckOutput returns the captured stdout with a nil error when the
command exits zero; on a nonzero exit it returns an error whose message
embeds the exit code and the captured stderr; on a non-exit failure it
returns an error whose message embeds the raw underlying error. -/
theorem checkOutput_error_reporting (name : String) (args : List String)
    (out stderr emsg : String) (code : Int) :
    CheckOutput name args (.success out) = (out, none) ∧
    (∃ msg, CheckOutput name args (.exitError out code stderr) =
        (out, some msg) ∧
      stringContains msg (toString code) = true ∧
      stringContains msg stderr = true) ∧
    (∃ msg, CheckOutput name args (.otherError out emsg) = (out, some msg) ∧
      stringContains msg emsg = true) := by
  refine ⟨rfl, ⟨_, rfl, ?_, ?_⟩, ⟨_, rfl, ?_⟩⟩ <;>
    · simp only [stringContains, String.data_append, List.append_assoc]
      repeat
        first
        | exact substrOccurs_of_isPrefixOf (isPrefixOf_self _)
        | exact substrOccurs_of_isPrefixOf (isPrefixOf_append_self _ _)
        | apply substrOccurs_append_left

/-- C8: every failure returned by VerifyRpmSignature,
VerifyTarballSignature, or VerifyGitSignature has a message that begins
with the caller-supplied error-prefix string, unmodified (stated as: the
prefix's characters are a prefix of every returned message's characters,
over all environments and inputs). -/
theorem failure_messages_begin_with_err_context (env : ExtEnv)
    (res : ExecResult)
    (rpmPath tarballPath tarballSigPath pubKeyPath errPfx : String)
    (gs : GitSpec) :
    Option.all (fun m => errPfx.data.isPrefixOf m.data)
      (VerifyRpmSignature res rpmPath errPfx) = true ∧
    Option.all (fun m => errPfx.data.isPrefixOf m.data)
      (VerifyTarballSignature env tarballPath tarballSigPath pubKeyPath
        errPfx).2 = true ∧
    Option.all (fun m => errPfx.data.isPrefixOf m.data)
      (VerifyGitSignature env pubKeyPath gs errPfx).2 = true := by
  obtain ⟨mk, co, io, v, g⟩ := env
  refine ⟨?_, ?_, ?_⟩
  · cases res with
    | success out =>
        cases h : stringContains out "digests signatures OK" <;>
          simp [VerifyRpmSignature, CheckOutput, h, Option.all,
            String.data_append, List.append_assoc, isPrefixOf_append_self]
    | exitError out code stderr =>
        simp [VerifyRpmSignature, CheckOutput, Option.all,
          String.data_append, List.append_assoc, isPrefixOf_append_self]
    | otherError out e =>
        simp [VerifyRpmSignature, CheckOutput, Option.all,
          String.data_append, List.append_assoc, isPrefixOf_append_self]
  · cases mk <;> cases co <;> cases io <;> cases v <;>
      simp [VerifyTarballSignature, CheckOutput, Option.all,
        String.data_append, List.append_assoc, isPrefixOf_append_self]
  · cases mk <;> cases co <;> cases io <;>
      simp [VerifyGitSignature, GitSpec.typeOfGitRevision, Option.all,
        String.data_append, List.append_assoc, isPrefixOf_append_self]

/-- C4 counterexample: with a successful keyring setup and a revision that
is classified neither as a commit nor as a tag, VerifyGitSignature does
return the input-validation failure naming the revision, but an external
tool (gpg, for keyring creation) has already been invoked before the
failure is reported — refuting the claim's "no external tool invoked". -/
theorem git_invalid_revision_still_invokes_gpg :
    (VerifyGitSignature ⟨.ok "/tmp/eext-keyring1", none, none, .success "", none⟩
        "key.pub" ⟨"deadbeef", "/repo"⟩ "stage1: ").2 =
      some "stage1: invalid revision deadbeef provided, provide either a COMMIT or TAG" ∧
    Event.run "gpg" ["--homedir", "/tmp/eext-keyring1", "--no-default-keyring",
        "--keyring", "/tmp/eext-keyring1/eext.gpg", "--fingerprint"] ∈
      (VerifyGitSignature ⟨.ok "/tmp/eext-keyring1", none, none, .success "", none⟩
        "key.pub" ⟨"deadbeef", "/repo"⟩ "stage1: ").1 := by
  constructor
  · rfl
  · exact List.mem_cons_self _ _

/-- C4 (amended): for every GitSpec whose revision is classified as
neither a commit nor a tag (under this code, every GitSpec), and whenever
keyring creation and key import succeed, VerifyGitSignature returns an
input-validation failure naming the invalid revision, and no verification
subprocess (`git verify-commit` / `git verify-tag`, i.e. no `runIn`
event) is ever run in any environment; the keyring-setup gpg invocations,
however, do occur before the failure is reported. -/
theorem git_unclassifiable_revision_rejected (env : ExtEnv)
    (tmpDir pubKeyPath errPfx : String) (v : ExecResult) (g : Option String)
    (gs : GitSpec) :
    ((VerifyGitSignature env pubKeyPath gs errPfx).1.all
      fun e => !e.isRunIn) = true ∧
    (VerifyGitSignature ⟨.ok tmpDir, none, none, v, g⟩ pubKeyPath gs
        errPfx).2 =
      some (errPfx ++ "invalid revision " ++ gs.Revision ++
        " provided, provide either a COMMIT or TAG") ∧
    Event.run "gpg" (gpgBaseArgs tmpDir ++ ["--fingerprint"]) ∈
      (VerifyGitSignature ⟨.ok tmpDir, none, none, v, g⟩ pubKeyPath gs
        errPfx).1 := by
  refine ⟨gitVerify_has_no_runIn env pubKeyPath gs errPfx, rfl, ?_⟩
  exact List.mem_cons_self _ _

/-- C10: typeOfGitRevision returns the empty string for every GitSpec
(never "COMMIT" or "TAG") and GetVersionFromRevision returns the empty
string; consequently VerifyGitSignature never performs a `git
verify-commit` or `git verify-tag` invocation (no `runIn` event in any
environment), and whenever keyring creation and key import succeed it
returns the invalid-revision error. -/
theorem revision_stub_forces_invalid_revision (gs : GitSpec) (env : ExtEnv)
    (tmpDir pubKeyPath errPfx : String) (v : ExecResult)
    (g : Option String) :
    gs.typeOfGitRevision = "" ∧
    gs.GetVersionFromRevision = "" ∧
    ((VerifyGitSignature env pubKeyPath gs errPfx).1.all
      fun e => !e.isRunIn) = true ∧
    (VerifyGitSignature ⟨.ok tmpDir, none, none, v, g⟩ pubKeyPath gs
        errPfx).2 =
      some (errPfx ++ "invalid revision " ++ gs.Revision ++
        " provided, provide either a COMMIT or TAG") :=
  ⟨rfl, rfl, gitVerify_has_no_runIn env pubKeyPath gs errPfx, rfl⟩

/-- C5: the claim says a revision classified as a tag has its tag name
returned unchanged by GetVersionFromRevision; in the code both
typeOfGitRevision and GetVersionFromRevision are stubs, so the tag
"v1.2.0" is never classified as a tag and its derived version is the
empty string, not "v1.2.0" (evaluation of the code at the failing
input). -/
theorem tag_version_derivation_stubbed :
    GitSpec.typeOfGitRevision ⟨"v1.2.0", "/repo"⟩ = "" ∧
    GitSpec.GetVersionFromRevision ⟨"v1.2.0", "/repo"⟩ = "" ∧
    GitSpec.GetVersionFromRevision ⟨"v1.2.0", "/repo"⟩ ≠ "v1.2.0" := by
  refine ⟨rfl, rfl, ?_⟩
  decide

/-- C6: the claim says a commit hash at or below the canonical short
length is returned unchanged and a longer hash is truncated to a prefix
of that length; in the code both typeOfGitRevision and
GetVersionFromRevision are stubs, so the short hash "abc123" and the
40-character hash both derive the empty string (evaluation of the code
at the failing inputs). -/
theorem commit_version_derivation_stubbed :
    GitSpec.typeOfGitRevision ⟨"abc123", "/repo"⟩ = "" ∧
    GitSpec.GetVersionFromRevision ⟨"abc123", "/repo"⟩ = "" ∧
    GitSpec.GetVersionFromRevision ⟨"abc123", "/repo"⟩ ≠ "abc123" ∧
    GitSpec.GetVersionFromRevision
      ⟨"abcdef0123456789abcdef0123456789abcdef01", "/repo"⟩ = "" := by
  refine ⟨rfl, rfl, ?_, rfl⟩
  decide

/-- C7: the claim says an empty revision or a failed classification must
propagate as an error and never produce an empty version token; in the
code GetVersionFromRevision has no error channel at all and returns the
empty string for the empty revision (evaluation of the code at the
failing input). -/
theorem empty_revision_yields_empty_token :
    GitSpec.GetVersionFromRevision ⟨"", "/repo"⟩ = "" ∧
    GitSpec.typeOfGitRevision ⟨"", "/repo"⟩ = "" :=
  ⟨rfl, rfl⟩

end EextUtil
